/-
Verification of the battle-bots 3D generation server (tools/3d-gen/server.py)
against its natural-language specification.

The server is a thin orchestration layer: HTTP handlers sequence calls to
third-party ML pipelines (TripoSG reconstruction, RMBG segmentation, the
UniRig rigging toolchain, pymeshlab decimation, duckduckgo image search)
and move files in and out of a shared output directory.  We embed the
handlers shallowly: the process-wide mutable module state (the lazily
loaded model pair and the output directory contents) becomes an explicit
`ServerState` threaded through every handler, each third-party call whose
behaviour the server merely consumes becomes an oracle field of a
per-request environment record, and a handler returns an `HResult`
distinguishing a normal JSON response, a structured `HTTPException`, and a
Python exception escaping the handler unhandled.

File paths are strings relative to the project root; the output directory
`OUTPUT_DIR = PROJECT_ROOT/public/parts/generated` is the string constant
`outputDir` below.  The filesystem is the list of existing paths.
-/

import Mathlib

namespace BattleBots

/-- The output directory, relative to the project root
(`OUTPUT_DIR = PROJECT_ROOT / "public" / "parts" / "generated"`). -/
def outputDir : String := "public/parts/generated"

/-- A triangle mesh, abstracted to its vertex and face counts — the only
attributes the server ever reads from a `trimesh.Trimesh`. -/
structure Mesh where
  vertices : Nat
  faces : Nat
deriving Repr, DecidableEq

/-- Module-level mutable state of `server.py`: the lazily loaded TripoSG
pipeline and RMBG network (`triposg_pipe`, `rmbg_net`, both `None` when
the module loads), and the set of files existing under the project root. -/
structure ServerState where
  triposgPipe : Option Nat
  rmbgNet : Option Nat
  fs : List String
deriving Repr, DecidableEq

/-- The state of a freshly started server process over an initial
filesystem: no models resident. -/
def initState (fs0 : List String) : ServerState :=
  { triposgPipe := none, rmbgNet := none, fs := fs0 }

/-- Outcome of one HTTP handler invocation.  `ok` is a normal JSON
response; `httpError` is a raised `fastapi.HTTPException` (status code and
detail), which FastAPI renders as a structured error response; `unhandled`
is any other Python exception escaping the handler undigested. -/
inductive HResult (α : Type) where
  | ok : α → HResult α
  | httpError : Nat → String → HResult α
  | unhandled : String → HResult α
deriving Repr, DecidableEq

/-- `part["path"].lstrip("/")`: drop every leading slash of a
client-supplied path before resolving it against the project root. -/
def lstripSlash (s : String) : String :=
  ⟨s.data.dropWhile (· = '/')⟩

/- ── Model loader (server.py lines 69-119) ─────────────────────────── -/

/-- Oracle for the third-party loading work inside `get_triposg_models`:
either both models load (`ok (pipe, rmbg)`) or an `ImportError` /
generic exception is raised by the libraries (`error msg`). -/
def LoadOutcome : Type := Except String (Nat × Nat)

/-- `get_triposg_models()`: return the cached pair if `triposg_pipe` is
already set; otherwise attempt the load, caching both models on success
and catching `ImportError` and any other exception into a `(None, None)`
return (the error is logged, never re-raised). -/
def get_triposg_models (st : ServerState) (load : LoadOutcome) :
    (Option Nat × Option Nat) × ServerState :=
  match st.triposgPipe with
  | some p => ((some p, st.rmbgNet), st)
  | none =>
    match load with
    | .ok (p, r) =>
      ((some p, some r), { st with triposgPipe := some p, rmbgNet := some r })
    | .error _ => ((none, none), st)

/-- `unload_triposg()`: drop both model references and free VRAM; a no-op
when nothing is loaded. -/
def unload_triposg (st : ServerState) : ServerState :=
  { st with triposgPipe := none, rmbgNet := none }

/- ── POST /generate (server.py lines 234-334) ──────────────────────── -/

/-- Per-request oracle inputs of `/generate`: the model-load outcome, the
random token drawn by `uuid.uuid4().hex[:8]`, the mesh produced by image
decoding + preprocessing + TripoSG inference (an `error` is any exception
raised inside the handler's `try` block up to mesh construction), and the
pymeshlab decimation call (`decimate m target`), whose `error` is any
exception raised during face reduction. -/
structure GenEnv where
  loadResult : LoadOutcome
  token : String
  inferredMesh : Except String Mesh
  decimate : Mesh → Nat → Except String Mesh

/-- Successful `/generate` response body. -/
structure GenResult where
  part_id : String
  glb_path : String
  vertices : Nat
  faces : Nat
deriving Repr, DecidableEq

/-- The decimation guard of `/generate`:
`if faces > 0 and mesh.faces.shape[0] > faces`. -/
def decimationAttempted (faces : Int) (m : Mesh) : Prop :=
  0 < faces ∧ faces < (m.faces : Int)

instance (faces : Int) (m : Mesh) : Decidable (decimationAttempted faces m) :=
  inferInstanceAs (Decidable (_ ∧ _))

/-- Path written by a successful `/generate` given the drawn token:
`OUTPUT_DIR / f"gen_.glb"` with the token spliced in. -/
def genWrittenPath (token : String) : String :=
  outputDir ++ "/gen_" ++ token ++ ".glb"

/-- `generate_3d`: acquire the models (503 if unavailable), run
preprocessing + inference, optionally decimate to the requested face
budget keeping the full mesh when decimation raises, export under a fresh
`gen_<token>.glb` name, and catch any exception of the `try` block into a
500 whose detail carries the underlying message. -/
def generate_3d (st : ServerState) (env : GenEnv) (faces : Int) :
    HResult GenResult × ServerState :=
  match get_triposg_models st env.loadResult with
  | ((none, _), st') =>
    (.httpError 503 "TripoSG model not available. Install dependencies first.", st')
  | ((some _, _), st') =>
    match env.inferredMesh with
    | .error e => (.httpError 500 ("Generation failed: " ++ e), st')
    | .ok mesh =>
      let mesh' :=
        if decimationAttempted faces mesh then
          match env.decimate mesh faces.toNat with
          | .ok m => m
          | .error _ => mesh
        else mesh
      let part_id := "gen_" ++ env.token
      (.ok { part_id := part_id,
             glb_path := "/parts/generated/" ++ part_id ++ ".glb",
             vertices := mesh'.vertices,
             faces := mesh'.faces },
       { st' with fs := genWrittenPath env.token :: st'.fs })

/- ── POST /search-image (server.py lines 340-397) ──────────────────── -/

/-- Body of a `/search-image` request. -/
structure SearchImageRequest where
  query : String
  remove_bg : Bool
deriving Repr, DecidableEq

/-- One candidate returned by the external search: the image URL and the
title (already defaulted to `""` as `r.get("title", "")` does). -/
structure SearchHit where
  image : String
  title : String
deriving Repr, DecidableEq

/-- Per-request oracle inputs of `/search-image`: whether the
`duckduckgo_search`/`httpx` imports succeed, the candidate list returned
by `ddgs.images(query, max_results=5)`, the outcome of downloading and
decoding the first candidate (`ok` is the decoded image size; `error` is
any exception, including a non-2xx status raised by
`resp.raise_for_status()`), the optional `rembg` pass (`some sz` when
`rembg` is installed and returns an image of size `sz`; `none` when the
rembg import fails, in which case the original image is kept), and the
random token drawn by `uuid.uuid4().hex[:8]`. -/
structure SearchEnv where
  libsAvailable : Bool
  results : List SearchHit
  download : Except String (Nat × Nat)
  rembgResult : Option (Nat × Nat)
  token : String

/-- The two shapes `/search-image` can return: the empty-result payload
`\x7b"images": [], "message": ...\x7d`, or the full descriptor of a
downloaded reference image. -/
inductive SearchResponse where
  | noResults (images : List SearchHit) (message : String)
  | found (image_id : String) (image_path : String) (source_url : String)
      (size : Nat × Nat) (all_results : List (String × String))
deriving Repr, DecidableEq

/-- Path written by a successful `/search-image` given the drawn token:
`OUTPUT_DIR / f"ref_.png"` with the token spliced in. -/
def refWrittenPath (token : String) : String :=
  outputDir ++ "/ref_" ++ token ++ ".png"

/-- `search_image`: 503 when the search library is missing
(`except ImportError`), the literal empty payload when the search returns
no candidates, otherwise download the first candidate, optionally strip
its background, save it under a fresh `ref_<token>.png` name and describe
it; any other exception is caught into a 500 carrying its message. -/
def search_image (st : ServerState) (env : SearchEnv)
    (req : SearchImageRequest) : HResult SearchResponse × ServerState :=
  if !env.libsAvailable then
    (.httpError 503
      "duckduckgo_search not installed. pip install duckduckgo_search httpx", st)
  else
    match env.results with
    | [] => (.ok (.noResults [] "No images found"), st)
    | first :: _ =>
      match env.download with
      | .error e => (.httpError 500 ("Image search failed: " ++ e), st)
      | .ok sz =>
        let finalSize :=
          if req.remove_bg then
            match env.rembgResult with
            | some s => s
            | none => sz
          else sz
        let img_id := "ref_" ++ env.token
        (.ok (.found img_id ("/parts/generated/" ++ img_id ++ ".png")
            first.image finalSize
            ((env.results.take 5).map (fun r => (r.image, r.title)))),
         { st with fs := refWrittenPath env.token :: st.fs })

/- ── POST /merge (server.py lines 403-441) ─────────────────────────── -/

/-- One entry of a `/merge` request's `parts` list: a dict with a
mandatory `path` and optional `position` / `rotation` triples (absent keys
modelled as `none`; `part.get(...)` supplies the defaults). -/
structure MergePart where
  path : String
  position : Option (List ℚ)
  rotation : Option (List ℚ)
deriving Repr, DecidableEq

/-- Body of a `/merge` request. -/
structure MergeRequest where
  parts : List MergePart
  output_name : String
deriving Repr, DecidableEq

/-- What `trimesh.load` yields for a part file: either a `trimesh.Scene`
of named geometries or a single mesh. -/
inductive Loaded where
  | scene (geoms : List (String × Mesh))
  | single (m : Mesh)
deriving Repr, DecidableEq

/-- The arguments the handler passes to
`trimesh.transformations.compose_matrix`: the translation triple and the
rotation angles after degree→radian conversion. -/
structure Transform where
  translate : List ℚ
  angles : List ℚ
deriving Repr, DecidableEq

/-- Per-request oracle inputs of `/merge`: the third-party mesh loader
(`error` is any exception raised by `trimesh.load`), the degree→radian
conversion `np.radians` (kept abstract since π is irrational), and the
outcome of `combined.export` (`ok n` exports a file of `n` bytes; `error`
is any exception it raises). -/
structure MergeEnv where
  loadMesh : String → Except String Loaded
  radians : ℚ → ℚ
  exportResult : Except String Nat

/-- The transform composed for one part:
`compose_matrix(translate=part.get("position", [0,0,0]),
angles=[np.radians(r) for r in part.get("rotation", [0,0,0])])`. -/
def partTransform (radians : ℚ → ℚ) (p : MergePart) : Transform :=
  { translate := p.position.getD [0, 0, 0],
    angles := (p.rotation.getD [0, 0, 0]).map radians }

/-- Geometries added to the combined scene for the `i`-th part: every
named geometry of a loaded scene under `part_i_<name>`, or a single mesh
under `part_i`, each paired with the part's transform. -/
def addLoaded (i : Nat) (t : Transform) : Loaded → List (String × Mesh × Transform)
  | .scene geoms =>
    geoms.map (fun g => ("part_" ++ toString i ++ "_" ++ g.1, g.2, t))
  | .single m => [("part_" ++ toString i, m, t)]

/-- How the per-part loop of `merge_parts` aborts: a 404 for a
nonexistent path, or a Python exception from the loader. -/
inductive MergeAbort where
  | notFound (clientPath : String)
  | pyExn (msg : String)
deriving Repr, DecidableEq

/-- The `for i, part in enumerate(req.parts)` loop: resolve each part
path against the project root, raise 404 at the first path that does not
exist, load the file, and add its geometries with the part's composed
transform to the combined scene. -/
def mergeLoop (env : MergeEnv) (fs : List String) :
    Nat → List MergePart → Except MergeAbort (List (String × Mesh × Transform))
  | _, [] => .ok []
  | i, p :: rest =>
    if lstripSlash p.path ∈ fs then
      match env.loadMesh (lstripSlash p.path) with
      | .error e => .error (.pyExn e)
      | .ok loaded =>
        match mergeLoop env fs (i + 1) rest with
        | .error a => .error a
        | .ok tail => .ok (addLoaded i (partTransform env.radians p) loaded ++ tail)
    else .error (.notFound p.path)

/-- Path written by `/merge`: `OUTPUT_DIR / f".glb"` around the
caller-supplied `output_name` — no random component. -/
def mergeWrittenPath (output_name : String) : String :=
  outputDir ++ "/" ++ output_name ++ ".glb"

/-- Successful `/merge` response body. -/
structure MergeResult where
  merged_path : String
  parts_count : Nat
  file_size : Nat
deriving Repr, DecidableEq

/-- `merge_parts`: run the per-part loop, rendering a `notFound` abort as
an `HTTPException(404, ...)`; the handler has no generic `except`, so a
loader or export exception escapes unhandled.  On success the combined
scene is exported to `<output_name>.glb` and described. -/
def merge_parts (st : ServerState) (env : MergeEnv) (req : MergeRequest) :
    HResult MergeResult × ServerState :=
  match mergeLoop env st.fs 0 req.parts with
  | .error (.notFound p) => (.httpError 404 ("Part not found: " ++ p), st)
  | .error (.pyExn e) => (.unhandled e, st)
  | .ok _ =>
    match env.exportResult with
    | .error e => (.unhandled e, st)
    | .ok size =>
      (.ok { merged_path := "/parts/generated/" ++ req.output_name ++ ".glb",
             parts_count := req.parts.length,
             file_size := size },
       { st with fs := mergeWrittenPath req.output_name :: st.fs })

/- ── POST /rig (server.py lines 447-560) ───────────────────────────── -/

/-- Body of a `/rig` request. -/
structure RigRequest where
  glb_path : String
  output_name : String
deriving Repr, DecidableEq

/-- Outcome of one `subprocess.run(..., timeout=...)` call: the process
completed with a return code and captured diagnostic text, or the bound
elapsed and `subprocess.TimeoutExpired` was raised. -/
inductive SubOutcome where
  | completed (returncode : Nat) (errText : String)
  | timedOut
deriving Repr, DecidableEq

/-- Content of a generated `skin.json`, abstracted to the two list
lengths the handler reads: `len(skin_data.get("bones", []))` and
`len(skin_data.get("weights", []))`. -/
structure SkinData where
  bones : Nat
  weights : Nat
deriving Repr, DecidableEq

/-- Per-request oracle inputs of the rigging toolchain: the outcomes of
the skeleton-prediction, skin-prediction and skin-JSON-conversion
subprocesses, whether `UNIRIG_DIR/export_skin_json.py` exists (the
conversion is skipped otherwise), and the parsed content of `skin.json`
when the conversion writes it. -/
structure RigEnv where
  skel : SubOutcome
  skin : SubOutcome
  convertRun : SubOutcome
  exportScriptExists : Bool
  skinData : SkinData

/-- The per-request work directory `OUTPUT_DIR / f"rig_"` around the
caller-supplied `output_name`. -/
def rigWorkDir (output_name : String) : String :=
  outputDir ++ "/rig_" ++ output_name

/-- `work_dir / "skin.json"`. -/
def rigSkinJsonPath (output_name : String) : String :=
  rigWorkDir output_name ++ "/skin.json"

/-- `/rig` response body (a plain dict in the source; optional keys are
the ones set on only one branch). -/
structure RigResult where
  output_dir : String
  glb_input : String
  skin_json : Option String
  bone_count : Option Nat
  vertex_count : Option Nat
  message : Option String
deriving Repr, DecidableEq

/-- The "Check results" tail of the rig handler: if `skin.json` exists in
the work directory, report its path and the bone/weight counts parsed
from it; otherwise report a null `skin_json` with an explanatory
message. -/
def rigCheckResult (env : RigEnv) (req : RigRequest) (fs : List String) :
    RigResult :=
  if rigSkinJsonPath req.output_name ∈ fs then
    { output_dir := rigWorkDir req.output_name,
      glb_input := req.glb_path,
      skin_json := some ("/parts/generated/rig_" ++ req.output_name ++ "/skin.json"),
      bone_count := some env.skinData.bones,
      vertex_count := some env.skinData.weights,
      message := none }
  else
    { output_dir := rigWorkDir req.output_name,
      glb_input := req.glb_path,
      skin_json := none,
      bone_count := none,
      vertex_count := none,
      message := some "Rigging completed but skin.json not generated" }

/-- The `try` block of `rig_bot` (server.py lines 459-560) together with
its `except` clauses: run skeleton prediction and skin prediction (each a
hard failure on nonzero exit, and any `subprocess.TimeoutExpired` —
from *any* of the three subprocess calls — is caught into a 504), then
run the skin-JSON conversion when the script exists, logging a warning
(only) on its nonzero exit, and finally build the result from whether
`skin.json` exists.  This block is reached only after the
`unload_triposr()` call on line 455 — see `rig_bot` below for why it
never is in the shipped module. -/
def rigBody (st : ServerState) (env : RigEnv) (req : RigRequest) :
    HResult RigResult × ServerState :=
  match env.skel with
  | .timedOut => (.httpError 504 "Rigging timed out (120s limit)", st)
  | .completed c1 e1 =>
    if c1 ≠ 0 then
      (.httpError 500 ("Skeleton prediction failed: " ++ e1.take 500), st)
    else
      match env.skin with
      | .timedOut => (.httpError 504 "Rigging timed out (120s limit)", st)
      | .completed c2 e2 =>
        if c2 ≠ 0 then
          (.httpError 500 ("Skin prediction failed: " ++ e2.take 500), st)
        else
          if env.exportScriptExists then
            match env.convertRun with
            | .timedOut => (.httpError 504 "Rigging timed out (120s limit)", st)
            | .completed c3 _ =>
              let fs' :=
                if c3 = 0 then rigSkinJsonPath req.output_name :: st.fs else st.fs
              (.ok (rigCheckResult env req fs'), { st with fs := fs' })
          else
            (.ok (rigCheckResult env req st.fs), st)

/-- `rig_bot` as shipped: after the 404 existence check, line 455 calls
`unload_triposr()` — a name defined nowhere in the module (the unloader
actually defined on line 109 is `unload_triposg`; `generate_3d.py` does
not define `unload_triposr` either and is never imported by the server).
The interpreter therefore raises `NameError` before the handler's `try`
block, the exception escapes the handler, the models stay resident and no
rigging subprocess is ever started. -/
def rig_bot (st : ServerState) (req : RigRequest) :
    HResult RigResult × ServerState :=
  if lstripSlash req.glb_path ∈ st.fs then
    (.unhandled "NameError: name unload_triposr is not defined", st)
  else
    (.httpError 404 ("GLB not found: " ++ req.glb_path), st)

/- ── GET /status (server.py lines 189-228) and the server trace ────── -/

/-- The fields of the `/status` response the specification's claims are
about (the GPU probe is an external runtime query and is omitted). -/
structure StatusResponse where
  triposg_loaded : Bool
  output_dir : String
  generated_parts : Nat
deriving Repr, DecidableEq

/-- `len(list(OUTPUT_DIR.glob("*.glb")))`: direct children of the output
directory with a `.glb` suffix. -/
def countGeneratedGlb (fs : List String) : Nat :=
  (fs.filter (fun p =>
    (outputDir ++ "/").isPrefixOf p && p.endsWith ".glb"
      && !(p.drop (outputDir.length + 1)).contains '/')).length

/-- The `/status` handler: reports whether `triposg_pipe` is non-`None`,
the output directory, and the generated-file count. -/
def statusHandler (st : ServerState) : StatusResponse :=
  { triposg_loaded := st.triposgPipe.isSome,
    output_dir := outputDir,
    generated_parts := countGeneratedGlb st.fs }

/-- One handler invocation, with its per-request oracle inputs. -/
inductive Op where
  | generate (env : GenEnv) (faces : Int)
  | searchImage (env : SearchEnv) (req : SearchImageRequest)
  | merge (env : MergeEnv) (req : MergeRequest)
  | rig (req : RigRequest)
  | statusCheck
  | healthCheck

/-- State transition of one handler invocation (the response is
discarded; `/status` and `/health` are read-only). -/
def step (st : ServerState) : Op → ServerState
  | .generate env faces => (generate_3d st env faces).2
  | .searchImage env req => (search_image st env req).2
  | .merge env req => (merge_parts st env req).2
  | .rig req => (rig_bot st req).2
  | .statusCheck => st
  | .healthCheck => st

/-- Run a sequence of handler invocations. -/
def run (st : ServerState) (ops : List Op) : ServerState := ops.foldl step st

/-- Whether an invocation is a `/generate` call. -/
def Op.isGenerate : Op → Bool
  | .generate _ _ => true
  | _ => false

/- ── Helper lemmas ─────────────────────────────────────────────────── -/

/-- Splicing different tokens between a fixed path stem and extension
yields different paths. -/
theorem affix_injective (pre suf a b : String)
    (h : pre ++ a ++ suf = pre ++ b ++ suf) : a = b := by
  have hd : pre.data ++ a.data ++ suf.data = pre.data ++ b.data ++ suf.data := by
    have := congrArg String.data h
    simpa [String.data_append] using this
  apply String.ext
  have hd' : pre.data ++ (a.data ++ suf.data) = pre.data ++ (b.data ++ suf.data) := by
    simpa [List.append_assoc] using hd
  exact List.append_cancel_right (List.append_cancel_left hd')

/-- `/search-image` never touches the model pair. -/
theorem search_image_pipe (st : ServerState) (env : SearchEnv)
    (req : SearchImageRequest) :
    (search_image st env req).2.triposgPipe = st.triposgPipe := by
  unfold search_image
  split
  · rfl
  · split
    · rfl
    · split
      · rfl
      · rfl

/-- `/merge` never touches the model pair. -/
theorem merge_parts_pipe (st : ServerState) (env : MergeEnv)
    (req : MergeRequest) :
    (merge_parts st env req).2.triposgPipe = st.triposgPipe := by
  unfold merge_parts
  split
  · rfl
  · rfl
  · split
    · rfl
    · rfl

/-- `/rig` never touches the model pair (the unload it was meant to
perform dies in a `NameError`). -/
theorem rig_bot_pipe (st : ServerState) (req : RigRequest) :
    (rig_bot st req).2.triposgPipe = st.triposgPipe := by
  unfold rig_bot
  split
  · rfl
  · rfl

/-- Any invocation other than `/generate` leaves the model pair as it
was. -/
theorem step_pipe_of_not_generate (st : ServerState) (op : Op)
    (h : op.isGenerate = false) :
    (step st op).triposgPipe = st.triposgPipe := by
  cases op with
  | generate env faces => simp [Op.isGenerate] at h
  | searchImage env req => exact search_image_pipe st env req
  | merge env req => exact merge_parts_pipe st env req
  | rig req => exact rig_bot_pipe st req
  | statusCheck => rfl
  | healthCheck => rfl

/-- Over a trace with no `/generate` call, the model pair stays as it
was. -/
theorem run_pipe_of_no_generate (ops : List Op) (st : ServerState)
    (h : ∀ op ∈ ops, op.isGenerate = false) :
    (run st ops).triposgPipe = st.triposgPipe := by
  induction ops generalizing st with
  | nil => rfl
  | cons op rest ih =>
    have hop : op.isGenerate = false := h op (List.mem_cons_self op rest)
    have hrest : ∀ o ∈ rest, o.isGenerate = false :=
      fun o ho => h o (List.mem_cons_of_mem op ho)
    calc (run (step st op) rest).triposgPipe
        = (step st op).triposgPipe := ih (step st op) hrest
      _ = st.triposgPipe := step_pipe_of_not_generate st op hop

/-- After `/generate` with a successful model acquisition (models already
resident, or the load succeeding), the pipeline is resident. -/
theorem generate_pipe_of_acquire (st : ServerState) (env : GenEnv)
    (faces : Int)
    (h : st.triposgPipe.isSome ∨ ∃ pr, env.loadResult = .ok pr) :
    ((generate_3d st env faces).2).triposgPipe.isSome := by
  unfold generate_3d
  have hacq : ∃ p r st', get_triposg_models st env.loadResult = ((some p, r), st')
      ∧ st'.triposgPipe = some p := by
    unfold get_triposg_models
    cases hp : st.triposgPipe with
    | some p => exact ⟨p, st.rmbgNet, st, rfl, hp⟩
    | none =>
      rcases h with h | ⟨⟨p, r⟩, hload⟩
      · rw [hp] at h; simp [Option.isSome] at h
      · rw [hload]
        exact ⟨p, some r, _, rfl, rfl⟩
  obtain ⟨p, r, st', hacq, hp'⟩ := hacq
  rw [hacq]
  cases hm : env.inferredMesh with
  | error e => simp [hp']
  | ok mesh => simp [hp']

/-- On all-existing parts with a clean loader, the merge loop succeeds. -/
theorem mergeLoop_ok_of_all_exist (env : MergeEnv) (fs : List String)
    (parts : List MergePart) (i : Nat)
    (hex : ∀ p ∈ parts, lstripSlash p.path ∈ fs)
    (hload : ∀ path ∈ fs, ∃ l, env.loadMesh path = .ok l) :
    ∃ gs, mergeLoop env fs i parts = .ok gs := by
  induction parts generalizing i with
  | nil => exact ⟨[], rfl⟩
  | cons p rest ih =>
    have hp : lstripSlash p.path ∈ fs := hex p (List.mem_cons_self p rest)
    obtain ⟨l, hl⟩ := hload (lstripSlash p.path) hp
    obtain ⟨gs, hgs⟩ := ih (i + 1) (fun q hq => hex q (List.mem_cons_of_mem p hq))
    refine ⟨addLoaded i (partTransform env.radians p) l ++ gs, ?_⟩
    unfold mergeLoop
    simp [hp, hl, hgs]

/-- The merge loop aborts with a 404 naming exactly the first part whose
resolved path does not exist, provided the loader does not itself raise
on the existing parts before it. -/
theorem mergeLoop_first_missing (env : MergeEnv) (fs : List String)
    (parts : List MergePart) (i : Nat)
    (hload : ∀ path ∈ fs, ∃ l, env.loadMesh path = .ok l)
    (hmiss : ∃ p ∈ parts, lstripSlash p.path ∉ fs) :
    ∃ pre q suf, parts = pre ++ q :: suf ∧
      (∀ p ∈ pre, lstripSlash p.path ∈ fs) ∧
      lstripSlash q.path ∉ fs ∧
      mergeLoop env fs i parts = .error (.notFound q.path) := by
  induction parts generalizing i with
  | nil => simp at hmiss
  | cons p rest ih =>
    by_cases hp : lstripSlash p.path ∈ fs
    · have hmiss' : ∃ q ∈ rest, lstripSlash q.path ∉ fs := by
        rcases hmiss with ⟨q, hq, hqm⟩
        rcases List.mem_cons.mp hq with rfl | hq'
        · exact absurd hp hqm
        · exact ⟨q, hq', hqm⟩
      obtain ⟨pre, q, suf, heq, hpre, hq, hrun⟩ := ih (i + 1) hmiss'
      obtain ⟨l, hl⟩ := hload (lstripSlash p.path) hp
      refine ⟨p :: pre, q, suf, by simp [heq], ?_, hq, ?_⟩
      · intro x hx
        rcases List.mem_cons.mp hx with rfl | hx'
        · exact hp
        · exact hpre x hx'
      · unfold mergeLoop
        simp [hp, hl, hrun]
    · refine ⟨[], p, rest, rfl, by simp, hp, ?_⟩
      unfold mergeLoop
      simp [hp]

/-- A merge part with every optional field made explicit by the defaults
`part.get("position", [0,0,0])` / `part.get("rotation", [0,0,0])`. -/
def fillDefaults (p : MergePart) : MergePart :=
  { p with position := some (p.position.getD [0, 0, 0]),
           rotation := some (p.rotation.getD [0, 0, 0]) }

/-- Making the default fields explicit composes the same transform. -/
theorem partTransform_fillDefaults (radians : ℚ → ℚ) (p : MergePart) :
    partTransform radians (fillDefaults p) = partTransform radians p := by
  cases p with
  | mk path pos rot => cases pos <;> cases rot <;> rfl

/-- Making the default fields explicit does not change the merge loop. -/
theorem mergeLoop_fillDefaults (env : MergeEnv) (fs : List String)
    (parts : List MergePart) (i : Nat) :
    mergeLoop env fs i (parts.map fillDefaults) = mergeLoop env fs i parts := by
  induction parts generalizing i with
  | nil => rfl
  | cons p rest ih =>
    unfold mergeLoop
    simp only [List.map_cons]
    rw [show (fillDefaults p).path = p.path from rfl,
      partTransform_fillDefaults, ih (i + 1)]

/- ── Claim C1 ──────────────────────────────────────────────────────── -/

/-- C1: the claim says every `/rig` request on an existing mesh releases
the resident TripoSG/RMBG models before the first rigging subprocess.
The code instead calls `unload_triposr()`, a name defined nowhere, so the
handler dies in a `NameError` before its `try` block: the models are NOT
released (they remain resident in the post-state) and no rigging
subprocess is ever started.  This theorem evaluates the shipped code at
the claim's scenario, exhibiting the code bug the specification's design
notes flag as the "mismatched name" latent bug. -/
theorem c1_rig_unload_name_bug (st : ServerState) (req : RigRequest) (m : Nat)
    (hres : st.triposgPipe = some m)
    (hglb : lstripSlash req.glb_path ∈ st.fs) :
    (rig_bot st req).1 =
      .unhandled "NameError: name unload_triposr is not defined" ∧
    ((rig_bot st req).2).triposgPipe = some m := by
  unfold rig_bot
  simp [hglb, hres]

/-- Concrete server state for the C1 witness: models resident, one
generated mesh on disk. -/
def stC1 : ServerState :=
  { triposgPipe := some 1, rmbgNet := some 2,
    fs := ["public/parts/generated/gen_ab12cd34.glb"] }

/-- Concrete `/rig` request for the C1 witness. -/
def reqC1 : RigRequest :=
  { glb_path := "/public/parts/generated/gen_ab12cd34.glb",
    output_name := "rigged_bot" }

/-- C1 witness: the bug theorem evaluated on a concrete resident-model
state and an existing mesh. -/
theorem c1_rig_unload_name_bug_witness :
    (rig_bot stC1 reqC1).1 =
      .unhandled "NameError: name unload_triposr is not defined" ∧
    ((rig_bot stC1 reqC1).2).triposgPipe = some 1 :=
  c1_rig_unload_name_bug stC1 reqC1 1 rfl (by decide)

/- ── Claim C6 ──────────────────────────────────────────────────────── -/

/-- C6: when the TripoSG library import or weight download fails,
`get_triposg_models` returns the `(None, None)` error state (the
exception is caught, not propagated — in this embedding a raised
exception would be a separate outcome, and the acquire operation returns
a plain pair), and `/generate` responds 503 "model not available" without
running inference: the response is the 503 for every inference oracle,
and the state is unchanged. -/
theorem c6_model_unavailable (st : ServerState) (env : GenEnv) (faces : Int)
    (e : String)
    (hnone : st.triposgPipe = none)
    (hload : env.loadResult = .error e) :
    get_triposg_models st env.loadResult = ((none, none), st) ∧
    generate_3d st env faces =
      (.httpError 503 "TripoSG model not available. Install dependencies first.", st) := by
  have hacq : get_triposg_models st env.loadResult = ((none, none), st) := by
    unfold get_triposg_models
    rw [hnone, hload]
  refine ⟨hacq, ?_⟩
  unfold generate_3d
  rw [hacq]

/-- Concrete `/generate` oracle for the C6 witness: the library import
fails; the inference fields are never consulted. -/
def envC6 : GenEnv :=
  { loadResult := .error "ImportError: No module named triposg",
    token := "0a0a0a0a",
    inferredMesh := .error "never reached",
    decimate := fun _ _ => .error "never reached" }

/-- C6 witness: the unavailability theorem evaluated on a fresh server
with a failing model load. -/
theorem c6_model_unavailable_witness :
    get_triposg_models (initState []) envC6.loadResult = ((none, none), initState []) ∧
    generate_3d (initState []) envC6 50 =
      (.httpError 503 "TripoSG model not available. Install dependencies first.",
        initState []) :=
  c6_model_unavailable (initState []) envC6 50
    "ImportError: No module named triposg" rfl rfl

/- ── Claim C9 ──────────────────────────────────────────────────────── -/

/-- C9: a `/search-image` request whose external search yields an empty
result set returns exactly the success payload
`\x7b"images": [], "message": "No images found"\x7d` and leaves the
filesystem (hence the output directory) untouched. -/
theorem c9_empty_search_result (st : ServerState) (env : SearchEnv)
    (req : SearchImageRequest)
    (hlib : env.libsAvailable = true)
    (hempty : env.results = []) :
    search_image st env req = (.ok (.noResults [] "No images found"), st) := by
  unfold search_image
  rw [hlib, hempty]
  rfl

/-- Concrete `/search-image` oracle for the C9 witness: the search
library is importable and returns no candidates. -/
def envC9 : SearchEnv :=
  { libsAvailable := true, results := [],
    download := .error "never reached", rembgResult := none,
    token := "beefcafe" }

/-- Concrete server state for the C9 witness, with one pre-existing
output file to make "writes no file" observable. -/
def stC9 : ServerState := initState ["public/parts/generated/old.png"]

/-- C9 witness: the empty-search theorem evaluated on a concrete
request. -/
theorem c9_empty_search_result_witness :
    search_image stC9 envC9 { query := "battle bot", remove_bg := true } =
      (.ok (.noResults [] "No images found"), stC9) :=
  c9_empty_search_result stC9 envC9 { query := "battle bot", remove_bg := true }
    rfl rfl

/- ── Claim C3 ──────────────────────────────────────────────────────── -/

/-- C3: a `/merge` request with at least one nonexistent part path (under
a loader that does not itself raise on the existing files) returns a 404
naming exactly the first nonexistent part — every part before it exists —
and the state is unchanged, so no merged output file is created. -/
theorem c3_merge_missing_part (st : ServerState) (env : MergeEnv)
    (req : MergeRequest)
    (hload : ∀ path ∈ st.fs, ∃ l, env.loadMesh path = .ok l)
    (hmiss : ∃ p ∈ req.parts, lstripSlash p.path ∉ st.fs) :
    (merge_parts st env req).2 = st ∧
    ∃ pre q suf, req.parts = pre ++ q :: suf ∧
      (∀ p ∈ pre, lstripSlash p.path ∈ st.fs) ∧
      lstripSlash q.path ∉ st.fs ∧
      (merge_parts st env req).1 = .httpError 404 ("Part not found: " ++ q.path) := by
  obtain ⟨pre, q, suf, heq, hpre, hq, hrun⟩ :=
    mergeLoop_first_missing env st.fs req.parts 0 hload hmiss
  refine ⟨?_, pre, q, suf, heq, hpre, hq, ?_⟩
  · unfold merge_parts
    rw [hrun]
  · unfold merge_parts
    rw [hrun]

/-- Concrete merge oracle for the C3 witness. -/
def envC3 : MergeEnv :=
  { loadMesh := fun _ => .ok (.single ⟨4, 2⟩), radians := id,
    exportResult := .ok 64 }

/-- Concrete server state for the C3 witness: exactly one part file
exists. -/
def stC3 : ServerState := initState ["public/parts/generated/gen_a.glb"]

/-- Concrete `/merge` request for the C3 witness: the first part exists,
the second does not. -/
def reqC3 : MergeRequest :=
  { parts := [⟨"/public/parts/generated/gen_a.glb", some [1, 0, 0], none⟩,
              ⟨"/public/parts/generated/missing.glb", none, none⟩],
    output_name := "merged_bot" }

/-- C3 witness: the missing-part theorem evaluated on a concrete request
whose second part does not exist. -/
theorem c3_merge_missing_part_witness :
    (merge_parts stC3 envC3 reqC3).2 = stC3 ∧
    ∃ pre q suf, reqC3.parts = pre ++ q :: suf ∧
      (∀ p ∈ pre, lstripSlash p.path ∈ stC3.fs) ∧
      lstripSlash q.path ∉ stC3.fs ∧
      (merge_parts stC3 envC3 reqC3).1 =
        .httpError 404 ("Part not found: " ++ q.path) :=
  c3_merge_missing_part stC3 envC3 reqC3
    (fun path _ => ⟨.single ⟨4, 2⟩, rfl⟩)
    ⟨⟨"/public/parts/generated/missing.glb", none, none⟩, by simp [reqC3], by decide⟩

/- ── Claim C10 ─────────────────────────────────────────────────────── -/

/-- C10: a `/merge` request whose part entries omit `position` or
`rotation` is not rejected: with all parts existing and a clean loader
and export it succeeds, it behaves exactly as the same request with
`[0,0,0]` filled in for each missing field, and the transform composed
for any part is the one of its defaults-filled form. -/
theorem c10_merge_default_fields (st : ServerState) (env : MergeEnv)
    (req : MergeRequest) (n : Nat)
    (hex : ∀ p ∈ req.parts, lstripSlash p.path ∈ st.fs)
    (hload : ∀ path ∈ st.fs, ∃ l, env.loadMesh path = .ok l)
    (hn : env.exportResult = .ok n) :
    (merge_parts st env req).1 =
      .ok { merged_path := "/parts/generated/" ++ req.output_name ++ ".glb",
            parts_count := req.parts.length, file_size := n } ∧
    merge_parts st env
        { parts := req.parts.map fillDefaults, output_name := req.output_name } =
      merge_parts st env req ∧
    ∀ p, partTransform env.radians (fillDefaults p) = partTransform env.radians p := by
  obtain ⟨gs, hgs⟩ := mergeLoop_ok_of_all_exist env st.fs req.parts 0 hex hload
  refine ⟨?_, ?_, fun p => partTransform_fillDefaults env.radians p⟩
  · unfold merge_parts
    rw [hgs, hn]
  · unfold merge_parts
    rw [mergeLoop_fillDefaults, hgs, hn]
    simp

/-- Concrete merge oracle for the C10 witness. -/
def envC10 : MergeEnv :=
  { loadMesh := fun _ => .ok (.scene [("body", ⟨8, 12⟩)]), radians := fun d => d / 57,
    exportResult := .ok 2048 }

/-- Concrete server state for the C10 witness: both part files exist. -/
def stC10 : ServerState :=
  initState ["public/parts/generated/gen_a.glb", "public/parts/generated/gen_b.glb"]

/-- Concrete `/merge` request for the C10 witness: the first part omits
`rotation`, the second omits both optional fields. -/
def reqC10 : MergeRequest :=
  { parts := [⟨"/public/parts/generated/gen_a.glb", some [1, 2, 3], none⟩,
              ⟨"/public/parts/generated/gen_b.glb", none, none⟩],
    output_name := "merged_bot" }

/-- C10 witness: the default-fields theorem evaluated on a concrete
request omitting the optional fields. -/
theorem c10_merge_default_fields_witness :
    (merge_parts stC10 envC10 reqC10).1 =
      .ok { merged_path := "/parts/generated/merged_bot.glb",
            parts_count := 2, file_size := 2048 } ∧
    merge_parts stC10 envC10
        { parts := reqC10.parts.map fillDefaults, output_name := "merged_bot" } =
      merge_parts stC10 envC10 reqC10 ∧
    ∀ p, partTransform envC10.radians (fillDefaults p) =
      partTransform envC10.radians p :=
  c10_merge_default_fields stC10 envC10 reqC10 2048
    (by decide)
    (fun path _ => ⟨.scene [("body", ⟨8, 12⟩)], rfl⟩) rfl

/- ── Claim C2 ──────────────────────────────────────────────────────── -/

/-- The face count `/generate` reports: the decimated mesh's when the
face-budget guard fires and pymeshlab succeeds, the reconstructed mesh's
otherwise. -/
theorem generate_result_faces (st : ServerState) (env : GenEnv) (faces : Int)
    (r : GenResult) (st' : ServerState) (m : Mesh)
    (hm : env.inferredMesh = .ok m)
    (hok : generate_3d st env faces = (.ok r, st')) :
    r.faces = (if decimationAttempted faces m then
        match env.decimate m faces.toNat with
        | .ok mm => mm
        | .error _ => m
      else m).faces := by
  unfold generate_3d at hok
  rcases hacq : get_triposg_models st env.loadResult with ⟨⟨pipe, rm⟩, st2⟩
  rw [hacq] at hok
  cases pipe with
  | none => simp at hok
  | some p =>
    rw [hm] at hok
    simp only [Prod.mk.injEq, HResult.ok.injEq] at hok
    rw [← hok.1]

/-- C2: provided pymeshlab's quadric edge collapse honours its
`targetfacenum` contract (a successful decimation has at most the target
number of faces — the simplifier itself is out of scope), a successful
`/generate` with a positive face budget reports (a) at most the budget
when the decimation branch ran and succeeded, (b) exactly the
reconstructed mesh's face count when decimation was skipped or raised,
and (c) never more than the reconstructed mesh's face count. -/
theorem c2_generate_face_budget (st : ServerState) (env : GenEnv) (faces : Int)
    (r : GenResult) (st' : ServerState) (m : Mesh)
    (hdec : ∀ mm t mm', env.decimate mm t = .ok mm' → mm'.faces ≤ t)
    (hm : env.inferredMesh = .ok m)
    (hpos : 0 < faces)
    (hok : generate_3d st env faces = (.ok r, st')) :
    ((∀ m', decimationAttempted faces m → env.decimate m faces.toNat = .ok m' →
        (r.faces : Int) ≤ faces) ∧
     ((¬ decimationAttempted faces m ∨ ∃ e, env.decimate m faces.toNat = .error e) →
        r.faces = m.faces)) ∧
    r.faces ≤ m.faces := by
  have hrf := generate_result_faces st env faces r st' m hm hok
  have htn : (faces.toNat : Int) = faces := Int.toNat_of_nonneg hpos.le
  refine ⟨⟨?_, ?_⟩, ?_⟩
  · intro m' hatt hdok
    rw [if_pos hatt, hdok] at hrf
    have : r.faces ≤ faces.toNat := hrf ▸ hdec m faces.toNat m' hdok
    calc (r.faces : Int) ≤ (faces.toNat : Int) := by exact_mod_cast this
      _ = faces := htn
  · rintro (hna | ⟨e, he⟩)
    · rw [if_neg hna] at hrf
      exact hrf
    · by_cases hatt : decimationAttempted faces m
      · rw [if_pos hatt, he] at hrf
        exact hrf
      · rw [if_neg hatt] at hrf
        exact hrf
  · by_cases hatt : decimationAttempted faces m
    · rw [if_pos hatt] at hrf
      cases hd : env.decimate m faces.toNat with
      | error e =>
        rw [hd] at hrf
        exact hrf.le
      | ok mm =>
        rw [hd] at hrf
        have h1 : r.faces ≤ faces.toNat := hrf ▸ hdec m faces.toNat mm hd
        have h2 : faces.toNat ≤ m.faces := Int.toNat_le.mpr hatt.2.le
        exact h1.trans h2
    · rw [if_neg hatt] at hrf
      exact hrf.le

/-- Concrete `/generate` oracle for the C2 witness: models load, the
reconstruction yields a mesh of 8 faces, the decimator returns exactly
the target. -/
def envC2 : GenEnv :=
  { loadResult := .ok (1, 2), token := "deadbeef",
    inferredMesh := .ok ⟨9, 8⟩,
    decimate := fun _ t => .ok ⟨5, t⟩ }

/-- The C2 witness result: faces reduced from 8 to the budget 4. -/
def rC2 : GenResult :=
  { part_id := "gen_deadbeef",
    glb_path := "/parts/generated/gen_deadbeef.glb",
    vertices := 5, faces := 4 }

/-- C2 witness: the face-budget theorem evaluated on a concrete request
with budget 4 against an 8-face reconstruction. -/
theorem c2_generate_face_budget_witness :
    ((∀ m', decimationAttempted 4 (⟨9, 8⟩ : Mesh) →
        envC2.decimate ⟨9, 8⟩ (4 : Int).toNat = .ok m' →
        ((rC2.faces : Int) ≤ 4)) ∧
     ((¬ decimationAttempted 4 (⟨9, 8⟩ : Mesh) ∨
        ∃ e, envC2.decimate ⟨9, 8⟩ (4 : Int).toNat = .error e) →
        rC2.faces = (⟨9, 8⟩ : Mesh).faces)) ∧
    rC2.faces ≤ (⟨9, 8⟩ : Mesh).faces :=
  c2_generate_face_budget (initState []) envC2 4 rC2
    { triposgPipe := some 1, rmbgNet := some 2, fs := [genWrittenPath "deadbeef"] }
    ⟨9, 8⟩
    (fun mm t mm' h => by injection h with h2; subst h2; exact Nat.le_refl t)
    rfl (by decide) rfl

/- ── Claim C4 ──────────────────────────────────────────────────────── -/

/-- Concrete server state for the C4 counterexample. -/
def stC4 : ServerState := initState ["x.glb"]

/-- Concrete merge oracle for the C4 counterexample. -/
def envC4 : MergeEnv :=
  { loadMesh := fun _ => .ok (.single ⟨3, 1⟩), radians := id,
    exportResult := .ok 10 }

/-- First C4 request: merge nothing under the default output name. -/
def reqC4a : MergeRequest := { parts := [], output_name := "merged_bot" }

/-- Second, different C4 request: merge one part under the same default
output name. -/
def reqC4b : MergeRequest :=
  { parts := [⟨"x.glb", none, none⟩], output_name := "merged_bot" }

/-- C4 counterexample: two distinct `/merge` requests both succeed and
write the very same output path — the merge filename has no random
token, so writes across different requests can collide, falsifying the
claim for `/merge` (and likewise `/rig`, whose work directory is also
named purely by `output_name`). -/
theorem c4_counterexample :
    reqC4a ≠ reqC4b ∧
    (merge_parts stC4 envC4 reqC4a).1 =
      .ok { merged_path := "/parts/generated/merged_bot.glb",
            parts_count := 0, file_size := 10 } ∧
    (merge_parts stC4 envC4 reqC4b).1 =
      .ok { merged_path := "/parts/generated/merged_bot.glb",
            parts_count := 1, file_size := 10 } ∧
    (merge_parts stC4 envC4 reqC4a).2.fs.head? = some (mergeWrittenPath "merged_bot") ∧
    (merge_parts stC4 envC4 reqC4b).2.fs.head? = some (mergeWrittenPath "merged_bot") :=
  ⟨by decide, rfl, rfl, rfl, rfl⟩

/-- Prepending a fixed directory stem is injective on path tails. -/
theorem stem_append_injective (pre a b : String) (h : pre ++ a = pre ++ b) :
    a = b := by
  have hd : pre.data ++ a.data = pre.data ++ b.data := by
    have := congrArg String.data h
    simpa [String.data_append] using this
  exact String.ext (List.append_cancel_left hd)

/-- C4 amended: `/generate` and `/search-image` filenames embed the
per-request random token and never collide when the drawn tokens differ;
the `/merge` output path and the `/rig` work directory are determined
solely by the caller-supplied `output_name` — equal names give equal
paths, which is where two requests can collide. -/
theorem c4_amended_token_paths (t1 t2 n1 n2 : String) (ht : t1 ≠ t2) :
    genWrittenPath t1 ≠ genWrittenPath t2 ∧
    refWrittenPath t1 ≠ refWrittenPath t2 ∧
    (mergeWrittenPath n1 = mergeWrittenPath n2 ↔ n1 = n2) ∧
    (rigWorkDir n1 = rigWorkDir n2 ↔ n1 = n2) := by
  refine ⟨?_, ?_, ?_, ?_⟩
  · intro h
    exact ht (affix_injective (outputDir ++ "/gen_") ".glb" t1 t2 h)
  · intro h
    exact ht (affix_injective (outputDir ++ "/ref_") ".png" t1 t2 h)
  · exact ⟨fun h => affix_injective (outputDir ++ "/") ".glb" n1 n2 h,
      fun h => by rw [h]⟩
  · exact ⟨fun h => stem_append_injective (outputDir ++ "/rig_") n1 n2 h,
      fun h => by rw [h]⟩

/-- C4 amended witness: the amended theorem evaluated on two concrete
distinct tokens and concrete output names. -/
theorem c4_amended_token_paths_witness :
    genWrittenPath "ab12cd34" ≠ genWrittenPath "ef56ab78" ∧
    refWrittenPath "ab12cd34" ≠ refWrittenPath "ef56ab78" ∧
    (mergeWrittenPath "merged_bot" = mergeWrittenPath "merged_bot" ↔
      ("merged_bot" : String) = "merged_bot") ∧
    (rigWorkDir "merged_bot" = rigWorkDir "merged_bot" ↔
      ("merged_bot" : String) = "merged_bot") :=
  c4_amended_token_paths "ab12cd34" "ef56ab78" "merged_bot" "merged_bot" (by decide)

/- ── Claim C5 ──────────────────────────────────────────────────────── -/

/-- Concrete server state for the C5 counterexample. -/
def stC5 : ServerState := initState ["public/parts/generated/bot.glb"]

/-- Concrete `/rig` request for C5. -/
def reqC5 : RigRequest :=
  { glb_path := "/public/parts/generated/bot.glb", output_name := "rigged_bot" }

/-- C5 counterexample oracle: both mandatory steps exit 0, the skin-JSON
conversion subprocess hits its 30-second bound. -/
def envC5timeout : RigEnv :=
  { skel := .completed 0 "", skin := .completed 0 "",
    convertRun := .timedOut, exportScriptExists := true,
    skinData := ⟨0, 0⟩ }

/-- C5 counterexample: with both mandatory subprocess steps succeeding
and the third conversion subprocess timing out, the rigging block does
NOT return a success with a null skin-data field — the
`subprocess.TimeoutExpired` is caught by the handler's blanket timeout
clause and the request fails with a 504.  (`rigBody` is the handler's
`try` block, lines 459-560 — the code the claim is about.) -/
theorem c5_counterexample :
    rigBody stC5 envC5timeout reqC5 =
      (.httpError 504 "Rigging timed out (120s limit)", stC5) := rfl

/-- C5 amended: when both mandatory subprocess steps succeed and the
conversion script exists, a *nonzero exit* of the conversion subprocess
is tolerated — the block still returns success with a null skin-data
field and the explanatory message — but a *timeout* of the conversion
subprocess is a 504 request failure, not a tolerated degradation. -/
theorem c5_amended_convert_failure (st : ServerState) (env : RigEnv)
    (req : RigRequest) (e1 e2 : String)
    (hskel : env.skel = .completed 0 e1)
    (hskin : env.skin = .completed 0 e2)
    (hscript : env.exportScriptExists = true)
    (hfresh : rigSkinJsonPath req.output_name ∉ st.fs) :
    (∀ c e3, env.convertRun = .completed c e3 → c ≠ 0 →
      rigBody st env req = (.ok (rigCheckResult env req st.fs), st) ∧
      (rigCheckResult env req st.fs).skin_json = none ∧
      (rigCheckResult env req st.fs).message =
        some "Rigging completed but skin.json not generated") ∧
    (env.convertRun = .timedOut →
      rigBody st env req = (.httpError 504 "Rigging timed out (120s limit)", st)) := by
  constructor
  · intro c e3 hconv hc
    have hbody : rigBody st env req = (.ok (rigCheckResult env req st.fs), st) := by
      unfold rigBody
      rw [hskel, hskin, hconv]
      simp [hscript, hc]
    refine ⟨hbody, ?_, ?_⟩ <;> simp [rigCheckResult, hfresh]
  · intro hconv
    unfold rigBody
    rw [hskel, hskin, hconv]
    simp [hscript]

/-- C5 witness oracle: both mandatory steps exit 0, the conversion
subprocess exits 1. -/
def envC5exit : RigEnv :=
  { skel := .completed 0 "", skin := .completed 0 "",
    convertRun := .completed 1 "conversion exploded",
    exportScriptExists := true, skinData := ⟨0, 0⟩ }

/-- C5 amended witness: the amended theorem evaluated on a concrete
request whose conversion subprocess exits nonzero. -/
theorem c5_amended_convert_failure_witness :
    rigBody stC5 envC5exit reqC5 =
      (.ok (rigCheckResult envC5exit reqC5 stC5.fs), stC5) ∧
    (rigCheckResult envC5exit reqC5 stC5.fs).skin_json = none ∧
    (rigCheckResult envC5exit reqC5 stC5.fs).message =
      some "Rigging completed but skin.json not generated" :=
  (c5_amended_convert_failure stC5 envC5exit reqC5 "" "" rfl rfl rfl
    (by decide)).1 1 "conversion exploded" rfl (by decide)

/- ── Claim C7 ──────────────────────────────────────────────────────── -/

/-- C7 counterexample oracle: a `/generate` whose model load fails (the
library is not installed). -/
def envC7fail : GenEnv :=
  { loadResult := .error "ImportError: No module named triposg",
    token := "00000000",
    inferredMesh := .error "never reached",
    decimate := fun _ _ => .error "never reached" }

/-- C7 counterexample: in the execution consisting of one `/generate`
call whose model load fails, `/status` afterwards still reports the
models as not loaded — falsifying the claim that in *every* execution
`/status` after a `/generate` call reports them loaded. -/
theorem c7_counterexample :
    (statusHandler (run (initState []) [Op.generate envC7fail (-1)])).triposg_loaded
      = false := rfl

/-- C7 amended: `/status` before any `/generate` call (over any trace of
other invocations) reports the models not loaded, and `/status` right
after a `/generate` call during which model acquisition succeeded — the
models were already resident or the load returned the pair — reports
them loaded. -/
theorem c7_amended_status_loaded :
    (∀ (fs0 : List String) (ops : List Op),
      (∀ op ∈ ops, op.isGenerate = false) →
      (statusHandler (run (initState fs0) ops)).triposg_loaded = false) ∧
    (∀ (st : ServerState) (env : GenEnv) (faces : Int),
      (st.triposgPipe.isSome ∨ ∃ pr, env.loadResult = .ok pr) →
      (statusHandler (step st (.generate env faces))).triposg_loaded = true) := by
  constructor
  · intro fs0 ops h
    have hpipe := run_pipe_of_no_generate ops (initState fs0) h
    show ((run (initState fs0) ops).triposgPipe).isSome = false
    rw [hpipe]
    rfl
  · intro st env faces h
    have hsome := generate_pipe_of_acquire st env faces h
    simpa [statusHandler, step] using hsome

/-- C7 witness oracle: a `/generate` whose model load succeeds. -/
def envC7ok : GenEnv :=
  { loadResult := .ok (3, 4), token := "11111111",
    inferredMesh := .ok ⟨6, 4⟩,
    decimate := fun _ _ => .error "pymeshlab not installed" }

/-- C7 amended witness: the amended theorem evaluated on a concrete
generate-free trace and on one successful `/generate`. -/
theorem c7_amended_status_loaded_witness :
    (statusHandler (run (initState []) [Op.statusCheck, Op.healthCheck])).triposg_loaded
      = false ∧
    (statusHandler (step (initState []) (Op.generate envC7ok 0))).triposg_loaded
      = true :=
  ⟨c7_amended_status_loaded.1 [] [Op.statusCheck, Op.healthCheck] (by decide),
   c7_amended_status_loaded.2 (initState []) envC7ok 0 (Or.inr ⟨(3, 4), rfl⟩)⟩

/- ── Claim C8 ──────────────────────────────────────────────────────── -/

/-- Concrete server state for the C8 counterexample: the part referenced
by the request exists, so the 404 guard passes and the loader runs. -/
def stC8 : ServerState :=
  { triposgPipe := some 7, rmbgNet := some 8,
    fs := ["public/parts/generated/gen_x.glb"] }

/-- C8 counterexample oracle: `trimesh.load` raises on the (existing but
unreadable) part file. -/
def envC8merge : MergeEnv :=
  { loadMesh := fun _ => .error "ValueError: File type glb not supported",
    radians := id, exportResult := .ok 0 }

/-- Concrete `/merge` request for the C8 counterexample. -/
def reqC8merge : MergeRequest :=
  { parts := [⟨"/public/parts/generated/gen_x.glb", none, none⟩],
    output_name := "merged_bot" }

/-- C8 counterexample: the `/merge` handler has no generic exception
boundary — an exception raised by the third-party mesh loader on an
existing part escapes the handler unhandled instead of being translated
into a structured error response, falsifying the claim for `/merge` (one
of the very handlers the claim cites). -/
theorem c8_counterexample :
    (merge_parts stC8 envC8merge reqC8merge).1 =
      .unhandled "ValueError: File type glb not supported" := rfl

/-- C8 amended: `/generate` and `/search-image` do catch unclassified
exceptions at the handler boundary and translate them into structured
500 responses carrying the underlying message; but `/merge` (mesh
load/export exceptions) and `/rig` (the undefined-name error raised
before its `try` block) let such exceptions escape unhandled. -/
theorem c8_amended_handler_boundaries (st : ServerState) (genv : GenEnv)
    (faces : Int) (senv : SearchEnv) (sreq : SearchImageRequest)
    (gmsg smsg : String) (p : Nat) (hit : SearchHit) (hits : List SearchHit) :
    (st.triposgPipe = some p → genv.inferredMesh = .error gmsg →
      (generate_3d st genv faces).1 =
        .httpError 500 ("Generation failed: " ++ gmsg)) ∧
    (senv.libsAvailable = true → senv.results = hit :: hits →
      senv.download = .error smsg →
      (search_image st senv sreq).1 =
        .httpError 500 ("Image search failed: " ++ smsg)) ∧
    (∀ (menv : MergeEnv) (mreq : MergeRequest) (e : String),
      mergeLoop menv st.fs 0 mreq.parts = .error (.pyExn e) →
      (merge_parts st menv mreq).1 = .unhandled e) ∧
    (∀ rreq : RigRequest, lstripSlash rreq.glb_path ∈ st.fs →
      (rig_bot st rreq).1 =
        .unhandled "NameError: name unload_triposr is not defined") := by
  refine ⟨?_, ?_, ?_, ?_⟩
  · intro hp hinf
    unfold generate_3d
    have hacq : get_triposg_models st genv.loadResult = ((some p, st.rmbgNet), st) := by
      unfold get_triposg_models
      rw [hp]
    rw [hacq, hinf]
  · intro hlib hres hdl
    unfold search_image
    rw [hlib, hres, hdl]
    rfl
  · intro menv mreq e hloop
    unfold merge_parts
    rw [hloop]
  · intro rreq hmem
    unfold rig_bot
    simp [hmem]

/-- C8 witness oracle for `/generate`: inference raises. -/
def genvC8 : GenEnv :=
  { loadResult := .error "unused, models already resident",
    token := "22222222",
    inferredMesh := .error "CUDA out of memory",
    decimate := fun _ _ => .error "never reached" }

/-- C8 witness oracle for `/search-image`: one candidate, the download
raises. -/
def senvC8 : SearchEnv :=
  { libsAvailable := true,
    results := [⟨"https://example.com/bot.png", "bot"⟩],
    download := .error "HTTPStatusError 404", rembgResult := none,
    token := "33333333" }

/-- Concrete `/rig` request for the C8 witness. -/
def rreqC8 : RigRequest :=
  { glb_path := "/public/parts/generated/gen_x.glb", output_name := "rigged_bot" }

/-- C8 amended witness: the amended theorem evaluated on one concrete
state with all four handlers exercised. -/
theorem c8_amended_handler_boundaries_witness :
    (generate_3d stC8 genvC8 (-1)).1 =
      .httpError 500 ("Generation failed: " ++ "CUDA out of memory") ∧
    (search_image stC8 senvC8 { query := "battle bot", remove_bg := false }).1 =
      .httpError 500 ("Image search failed: " ++ "HTTPStatusError 404") ∧
    (merge_parts stC8 envC8merge reqC8merge).1 =
      .unhandled "ValueError: File type glb not supported" ∧
    (rig_bot stC8 rreqC8).1 =
      .unhandled "NameError: name unload_triposr is not defined" := by
  obtain ⟨h1, h2, h3, h4⟩ := c8_amended_handler_boundaries stC8 genvC8 (-1)
    senvC8 { query := "battle bot", remove_bg := false }
    "CUDA out of memory" "HTTPStatusError 404" 7
    ⟨"https://example.com/bot.png", "bot"⟩ []
  exact ⟨h1 rfl rfl, h2 rfl rfl rfl, h3 envC8merge reqC8merge _ rfl,
    h4 rreqC8 (by decide)⟩

end BattleBots
